import Mathlib

/-!
Verification development for the CoPilot repository's core pipeline:

* `tools/map_schema_to_question.py` — `MapQuestionToSchema._run`, the schema
  validator that checks a restated question against the live graph schema;
* `app/main.py` — `retrieve_answer`, the answer-extraction and response
  assembly logic around the agent call.

The Python code is shallowly embedded: machine-level effects are made
explicit (`Except` for statements that can raise, association lists for
dicts, an explicit model of `str.split` and `json.loads`).
-/

namespace CoPilot

/-! ## Python string primitives -/

/-- The `{` character (written via its code point). -/
def lbrace : Char := Char.ofNat 123

/-- The `}` character (written via its code point). -/
def rbrace : Char := Char.ofNat 125

/-- Does `p` occur at the head of `s`? (Used to locate separator occurrences.) -/
def headMatches : List Char → List Char → Bool
  | [], _ => true
  | _ :: _, [] => false
  | p :: ps, c :: cs => p = c && headMatches ps cs

/-- Fuel-driven worker for `pySplit`: scans `s` left to right, emitting a
piece each time the (non-empty) separator occurs, consuming the separator
without overlap — the semantics of Python's `str.split(sep)`. -/
def pySplitAux (sep : List Char) : Nat → List Char → List Char → List (List Char)
  | 0, _, acc => [acc.reverse]
  | fuel + 1, s, acc =>
    if headMatches sep s then
      acc.reverse :: pySplitAux sep fuel (s.drop sep.length) []
    else
      match s with
      | [] => [acc.reverse]
      | c :: rest => pySplitAux sep fuel rest (c :: acc)

/-- Python `s.split(sep)` for a fixed non-empty separator: the list of pieces
of `s` between consecutive non-overlapping occurrences of `sep`. -/
def pySplit (s sep : String) : List String :=
  (pySplitAux sep.data (s.data.length + 1) s.data []).map List.asString

example : pySplit "Function getCount produced" "Function " = ["", "getCount produced"] := by decide

example : pySplit "no marker here" "Function " = ["no marker here"] := by decide

example : pySplit "aXbXc" "X" = ["a", "b", "c"] := by decide

example : pySplit "aXXb" "X" = ["a", "", "b"] := by decide

/-! ## JSON values and a model of `json.loads`

`retrieve_answer` decodes the sliced result text with `json.loads`. The
decoder is modelled as a strict recursive-descent parser for the JSON
grammar; numbers are represented exactly as `mantissa * 10 ^ exponent`. -/

/-- A JSON value, as produced by decoding. Numbers carry an integer mantissa
and a decimal exponent, so every JSON numeral is represented exactly. -/
inductive Json where
  | null : Json
  | bool (b : Bool) : Json
  | num (mantissa : Int) (exponent : Int) : Json
  | str (s : String) : Json
  | arr (items : List Json) : Json
  | obj (entries : List (String × Json)) : Json
deriving Repr

/-- Skip JSON insignificant whitespace. -/
def skipWs : List Char → List Char
  | c :: rest =>
    if c = ' ' ∨ c = '\t' ∨ c = '\n' ∨ c = '\r' then skipWs rest else c :: rest
  | [] => []

/-- Numeric value of a hexadecimal digit, if it is one. -/
def hexVal (c : Char) : Option Nat :=
  if '0' ≤ c ∧ c ≤ '9' then some (c.toNat - '0'.toNat)
  else if 'a' ≤ c ∧ c ≤ 'f' then some (c.toNat - 'a'.toNat + 10)
  else if 'A' ≤ c ∧ c ≤ 'F' then some (c.toNat - 'A'.toNat + 10)
  else none

/-- Split off the leading run of decimal digits. -/
def takeDigits : List Char → List Char × List Char
  | [] => ([], [])
  | c :: rest =>
    if c.isDigit then
      let (ds, r) := takeDigits rest
      (c :: ds, r)
    else ([], c :: rest)

/-- Interpret a digit run as a natural number (most significant first). -/
def digitsToNat (acc : Nat) : List Char → Nat
  | [] => acc
  | c :: rest => digitsToNat (acc * 10 + (c.toNat - '0'.toNat)) rest

/-- Consume the literal word `p` from the head of `s`. -/
def dropLit : List Char → List Char → Option (List Char)
  | [], s => some s
  | _ :: _, [] => none
  | p :: ps, c :: cs => if p = c then dropLit ps cs else none

/-- Parse the body of a JSON string (the opening quote already consumed),
handling the escape sequences of the JSON grammar and rejecting raw control
characters, as the strict decoder does. -/
def parseStringBody (acc : List Char) : List Char → Except String (String × List Char)
  | [] => .error "Unterminated string"
  | c :: rest =>
    if c = '"' then .ok (acc.reverse.asString, rest)
    else if c = '\\' then
      match rest with
      | [] => .error "Unterminated string"
      | e :: rest2 =>
        if e = '"' then parseStringBody ('"' :: acc) rest2
        else if e = '\\' then parseStringBody ('\\' :: acc) rest2
        else if e = '/' then parseStringBody ('/' :: acc) rest2
        else if e = 'b' then parseStringBody ('\x08' :: acc) rest2
        else if e = 'f' then parseStringBody ('\x0c' :: acc) rest2
        else if e = 'n' then parseStringBody ('\n' :: acc) rest2
        else if e = 'r' then parseStringBody ('\r' :: acc) rest2
        else if e = 't' then parseStringBody ('\t' :: acc) rest2
        else if e = 'u' then
          match rest2 with
          | h1 :: h2 :: h3 :: h4 :: rest3 =>
            match hexVal h1, hexVal h2, hexVal h3, hexVal h4 with
            | some a, some b, some c3, some d =>
              parseStringBody (Char.ofNat (((a * 16 + b) * 16 + c3) * 16 + d) :: acc) rest3
            | _, _, _, _ => .error "Invalid hex escape"
          | _ => .error "Invalid hex escape"
        else .error "Invalid escape"
    else if c.toNat < 32 then .error "Invalid control character"
    else parseStringBody (c :: acc) rest

/-- Parse a JSON number at the head of `s` (first char a digit or a minus
sign). Follows the JSON grammar: an integer part without spurious leading
zeros, an optional fraction, an optional exponent; a dot or exponent letter
not followed by digits is left unconsumed, as the decoder's regex leaves it. -/
def parseNumber (s : List Char) : Except String (Json × List Char) :=
  let (neg, s1) := match s with
    | '-' :: r => (true, r)
    | _ => (false, s)
  match s1 with
  | c :: rest =>
    if c.isDigit then
      let (ids, s2) := if c = '0' then ([c], rest) else takeDigits s1
      let (fds, s3) := match s2 with
        | '.' :: r =>
          match takeDigits r with
          | ([], _) => ([], s2)
          | (ds, r2) => (ds, r2)
        | _ => ([], s2)
      let (eds, esign, s4) := match s3 with
        | e :: r =>
          if e = 'e' ∨ e = 'E' then
            match r with
            | sg :: r2 =>
              if sg = '+' ∨ sg = '-' then
                match takeDigits r2 with
                | ([], _) => (([] : List Char), false, s3)
                | (ds, r3) => (ds, sg = '-', r3)
              else
                match takeDigits r with
                | ([], _) => (([] : List Char), false, s3)
                | (ds, r3) => (ds, false, r3)
            | [] => (([] : List Char), false, s3)
          else (([] : List Char), false, s3)
        | [] => (([] : List Char), false, s3)
      let mantNat : Nat := digitsToNat 0 (ids ++ fds)
      let mant : Int := if neg then -(mantNat : Int) else (mantNat : Int)
      let expAbs : Int := (digitsToNat 0 eds : Int)
      let expVal : Int := (if esign then -expAbs else expAbs) - (fds.length : Int)
      .ok (.num mant expVal, s4)
    else .error "Expecting value"
  | [] => .error "Expecting value"

mutual

/-- Parse one JSON value at the head of `s` (leading whitespace allowed),
returning it with the unconsumed remainder. `fuel` only bounds recursion
depth; it is chosen large enough in `jsonLoads` that it never runs out. -/
def parseValue : Nat → List Char → Except String (Json × List Char)
  | 0, _ => .error "Out of fuel"
  | fuel + 1, s =>
    match skipWs s with
    | [] => .error "Expecting value"
    | c :: rest =>
      if c = '"' then
        match parseStringBody [] rest with
        | .ok (str, r) => .ok (.str str, r)
        | .error e => .error e
      else if c = lbrace then parseObject fuel (skipWs rest)
      else if c = '[' then parseArray fuel (skipWs rest)
      else if c = 't' then
        match dropLit "rue".data rest with
        | some r => .ok (.bool true, r)
        | none => .error "Expecting value"
      else if c = 'f' then
        match dropLit "alse".data rest with
        | some r => .ok (.bool false, r)
        | none => .error "Expecting value"
      else if c = 'n' then
        match dropLit "ull".data rest with
        | some r => .ok (.null, r)
        | none => .error "Expecting value"
      else if c = '-' ∨ c.isDigit then parseNumber (c :: rest)
      else .error "Expecting value"

/-- Parse an array body after the opening bracket (whitespace skipped). -/
def parseArray : Nat → List Char → Except String (Json × List Char)
  | 0, _ => .error "Out of fuel"
  | fuel + 1, s =>
    match s with
    | ']' :: rest => .ok (.arr [], rest)
    | _ => parseArrayItems fuel [] s

/-- Parse the comma-separated items of a non-empty array. -/
def parseArrayItems : Nat → List Json → List Char → Except String (Json × List Char)
  | 0, _, _ => .error "Out of fuel"
  | fuel + 1, acc, s =>
    match parseValue fuel s with
    | .error e => .error e
    | .ok (j, r) =>
      match skipWs r with
      | ',' :: r2 => parseArrayItems fuel (j :: acc) r2
      | ']' :: r2 => .ok (.arr (j :: acc).reverse, r2)
      | _ => .error "Expecting comma or closing bracket"

/-- Parse an object body after the opening brace (whitespace skipped). -/
def parseObject : Nat → List Char → Except String (Json × List Char)
  | 0, _ => .error "Out of fuel"
  | fuel + 1, s =>
    match s with
    | c :: rest =>
      if c = rbrace then .ok (.obj [], rest)
      else parseObjectItems fuel [] (c :: rest)
    | [] => .error "Expecting property name"

/-- Parse the comma-separated `"key": value` entries of a non-empty object. -/
def parseObjectItems : Nat → List (String × Json) → List Char → Except String (Json × List Char)
  | 0, _, _ => .error "Out of fuel"
  | fuel + 1, acc, s =>
    match s with
    | '"' :: rest =>
      match parseStringBody [] rest with
      | .error e => .error e
      | .ok (k, r) =>
        match skipWs r with
        | ':' :: r2 =>
          match parseValue fuel r2 with
          | .error e => .error e
          | .ok (v, r3) =>
            match skipWs r3 with
            | ',' :: r4 => parseObjectItems fuel ((k, v) :: acc) (skipWs r4)
            | c2 :: r4 =>
              if c2 = rbrace then .ok (.obj ((k, v) :: acc).reverse, r4)
              else .error "Expecting comma or closing brace"
            | [] => .error "Expecting comma or closing brace"
        | _ => .error "Expecting colon"
    | _ => .error "Expecting property name"

end

/-- Model of Python's `json.loads`: parse exactly one JSON value, allowing
only whitespace around it; anything left over is an error. -/
def jsonLoads (s : String) : Except String Json :=
  match parseValue (s.data.length * 4 + 16) s.data with
  | .error e => .error e
  | .ok (j, rest) => if (skipWs rest).isEmpty then .ok j else .error "Extra data"

example : jsonLoads "\x7b\"count\": 5\x7d" = .ok (.obj [("count", .num 5 0)]) := rfl

example : jsonLoads "[1, -2.5, true, null, \"x\"]"
    = .ok (.arr [.num 1 0, .num (-25) (-1), .bool true, .null, .str "x"]) := rfl

example : (jsonLoads "not json").isOk = false := by decide

example : (jsonLoads "").isOk = false := by decide

example : (jsonLoads "\x7b\"a\": 1").isOk = false := by decide

example : jsonLoads " 12e2 " = .ok (.num 12 2) := rfl

/-! ## Execution traces and the answer-extraction stage (`app/main.py`)

`retrieve_answer` receives from `agent.question_for_agent` a record `steps`
with an ordered list of `(tool, observation)` intermediate steps and a final
output string, and turns it into a `NaturalLanguageQueryResponse`. Statements
that can raise in Python are embedded through `Except`. -/

/-- The agent execution trace consumed by the extraction stage: the ordered
`intermediate_steps` (tool name, tool output) and the final `output` string. -/
structure ExecutionTrace where
  intermediate_steps : List (String × String)
  output : String
deriving Repr, DecidableEq

/-- The three shapes `retrieve_answer` assigns to `resp.query_sources`:
`\x7b"function_call": ..., "result": ...\x7d` on the structured path,
`\x7b"agent_history": ...\x7d` on the fallback path, and `\x7b\x7d` on
pipeline failure. -/
inductive QuerySources where
  | empty : QuerySources
  | functionResult (function_call : String) (result : Json) : QuerySources
  | agentHistory (agent_history : String) : QuerySources
deriving Repr

/-- The response record assembled by `retrieve_answer`
(`NaturalLanguageQueryResponse` in `app/schemas/schemas.py`). -/
structure NaturalLanguageQueryResponse where
  natural_language_response : String
  query_sources : QuerySources
  answered_question : Bool
deriving Repr

/-- Exceptions the primary extraction path can raise: an `IndexError` from
list indexing past the end, or a `json.JSONDecodeError` from `json.loads`. -/
inductive ExtractErr where
  | indexError : ExtractErr
  | jsonDecodeError (msg : String) : ExtractErr
deriving Repr, DecidableEq

/-- Python `repr` of a string, modelled as wrapping in single quotes. -/
def pyReprStr (s : String) : String := "\x27" ++ s ++ "\x27"

/-- Python `repr` of one `(tool, observation)` step tuple. -/
def renderStep (st : String × String) : String :=
  "(" ++ pyReprStr st.1 ++ ", " ++ pyReprStr st.2 ++ ")"

/-- Comma-separated rendering of a list of rendered elements. -/
def renderList (elems : List String) : String :=
  "[" ++ String.intercalate ", " elems ++ "]"

/-- Model of `str(steps)`: the textual rendering of the entire trace record,
with its intermediate steps and final output — the fallback's `raw_result`. -/
def renderTrace (t : ExecutionTrace) : String :=
  String.singleton lbrace ++ "\x27intermediate_steps\x27: "
    ++ renderList (t.intermediate_steps.map renderStep)
    ++ ", \x27output\x27: " ++ pyReprStr t.output ++ String.singleton rbrace

/-- The primary (structured) extraction path, `app/main.py` lines 103–108:
slice the last intermediate step's output on the fixed markers
`"Function "` / `" produced"` / `"the result "`, JSON-decode the sliced
result, and build the answered response. Each statement that can raise is
reflected in the `Except`: `[-1]` on an empty step list and `[1]` on a
one-piece split raise `IndexError`; `json.loads` can fail to decode. -/
def primaryExtract (steps : ExecutionTrace) : Except ExtractErr NaturalLanguageQueryResponse :=
  match steps.intermediate_steps.getLast? with
  | none => .error .indexError
  | some st =>
    let lastOutput := st.2
    match (pySplit lastOutput "Function ")[1]? with
    | none => .error .indexError
    | some afterMarker =>
      let function_call := (pySplit afterMarker " produced").headD ""
      let res := ((pySplit lastOutput "the result ").getLast?).getD ""
      match jsonLoads res with
      | .error m => .error (.jsonDecodeError m)
      | .ok decoded =>
        .ok { natural_language_response := steps.output,
              query_sources := .functionResult function_call decoded,
              answered_question := true }

/-- The fallback extraction path, `app/main.py` lines 110–112: keep the
final output as the natural-language response, preserve the whole trace
rendered as text under `"agent_history"`, and mark the question unanswered.
On a well-formed trace every operation here is total. -/
def fallbackExtract (steps : ExecutionTrace) : NaturalLanguageQueryResponse :=
  { natural_language_response := steps.output,
    query_sources := .agentHistory (renderTrace steps),
    answered_question := false }

/-- The inner `try`/`except` region of `retrieve_answer` (lines 102–112):
any exception on the primary path is caught locally and the fallback path
produces the response instead. -/
def extractAnswer (steps : ExecutionTrace) : NaturalLanguageQueryResponse :=
  match primaryExtract steps with
  | .ok r => r
  | .error _ => fallbackExtract steps

/-- The inner `try`/`except` region viewed with exceptions still explicit:
an `.error` outcome here would mean an exception escapes the region. The
handler's own statements are total on a well-formed trace, so the handler
returns `.ok` of the fallback response. -/
def extractAnswerE (steps : ExecutionTrace) : Except ExtractErr NaturalLanguageQueryResponse :=
  match primaryExtract steps with
  | .ok r => .ok r
  | .error _ => .ok (fallbackExtract steps)

/-- How the call `agent.question_for_agent(query.query)` can end: normally
with a trace, with the validator's `MapQuestionToSchemaException`, or with
any other exception (unparsable restatement, execution failure, ...). -/
inductive AgentOutcome where
  | ok (steps : ExecutionTrace) : AgentOutcome
  | mapQuestionToSchemaException (msg : String) : AgentOutcome
  | otherException (msg : String) : AgentOutcome
deriving Repr

/-- The empty-answer response shape built by both outer `except` clauses of
`retrieve_answer` (lines 113–120). -/
def emptyResponse : NaturalLanguageQueryResponse :=
  { natural_language_response := "",
    query_sources := .empty,
    answered_question := false }

/-- The outer `try`/`except` structure of `retrieve_answer` (lines 100–121):
on a normal agent outcome run the extraction region; a
`MapQuestionToSchemaException` and any other exception each produce the
empty-answer shape. -/
def retrieve_answer (outcome : AgentOutcome) : NaturalLanguageQueryResponse :=
  match outcome with
  | .ok steps => extractAnswer steps
  | .mapQuestionToSchemaException _ => emptyResponse
  | .otherException _ => emptyResponse

/-! ## Schema validation (`tools/map_schema_to_question.py`)

`MapQuestionToSchema._run` parses the model's restatement into a
`MapQuestionToSchemaResponse` and then checks it against the live schema by
iterating the target vertex types and then the target edge types, raising a
`MapQuestionToSchemaException` at the first unknown type or attribute. -/

/-- The live schema, as the validator reads it from the connection:
`conn.getVertexTypes()`, `conn.getEdgeTypes()`, and the per-type attribute
name lists from `conn.getVertexType(v)["Attributes"]` /
`conn.getEdgeType(e)["Attributes"]`. -/
structure SchemaCatalog where
  vertexTypes : List String
  edgeTypes : List String
  vertexAttributes : String → List String
  edgeAttributes : String → List String

/-- The parsed restatement (`MapQuestionToSchemaResponse` in the schemas
module): target types plus per-type claimed attribute lists, the attribute
dicts embedded as association lists. -/
structure MapQuestionToSchemaResponse where
  target_vertex_types : List String
  target_edge_types : List String
  target_vertex_attributes : List (String × List String)
  target_edge_attributes : List (String × List String)
deriving Repr, DecidableEq

/-- Python `d.get(k, [])` on an attribute dict. -/
def dictGet (d : List (String × List String)) (k : String) : List String :=
  (d.lookup k).getD []

/-- Ways the validation loops can terminate a request abnormally: raising a
`MapQuestionToSchemaException` with its message, or a `NameError` when a
statement reads a local name that was never bound. -/
inductive PyExc where
  | mapQuestionToSchemaException (message : String) : PyExc
  | nameError : PyExc
deriving Repr, DecidableEq

instance {ε α : Type} [DecidableEq ε] [DecidableEq α] : DecidableEq (Except ε α) := fun x y =>
  match x, y with
  | .ok a, .ok b => decidable_of_iff (a = b) (by simp)
  | .error a, .error b => decidable_of_iff (a = b) (by simp)
  | .ok _, .error _ => isFalse fun hc => Except.noConfusion hc
  | .error _, .ok _ => isFalse fun hc => Except.noConfusion hc

/-- Common tail of every validator message. -/
def notFoundTail : String := " is not found in the data schema. Please rephrase your question and try again."

/-- The exception message for an unknown type name `t`. -/
def unknownTypeMsg (t : String) : String := t ++ notFoundTail

/-- The exception message for an unknown attribute `a` of type `t`. -/
def unknownAttributeMsg (a t : String) : String :=
  a ++ " is not found for " ++ t ++ notFoundTail

/-- The inner attribute loop: scan the claimed attributes of type `t` in
order and return the exception message of the first one missing from the
catalog's attribute list `catAttrs`. -/
def checkAttrList (t : String) (catAttrs : List String) : List String → Option String
  | [] => none
  | a :: rest =>
    if catAttrs.contains a then checkAttrList t catAttrs rest
    else some (unknownAttributeMsg a t)

/-- The vertex loop (`_run` lines 52–59): for each target vertex type in
order, an unknown type raises at once naming that type; a known type has its
claimed attributes (`target_vertex_attributes.get(v, [])`) checked in order. -/
def checkVertexTypes (cat : SchemaCatalog) (tva : List (String × List String)) :
    List String → Option String
  | [] => none
  | v :: rest =>
    if cat.vertexTypes.contains v then
      match checkAttrList v (cat.vertexAttributes v) (dictGet tva v) with
      | some msg => some msg
      | none => checkVertexTypes cat tva rest
    else some (unknownTypeMsg v)

/-- The edge loop (`_run` lines 61–68). Attribute failures name the edge
type `e`, but the unknown-type branch at line 68 raises with the variable
`v` left over from the vertex loop: the message names the last target
vertex type, and when there was none the statement itself fails with a
`NameError` on the unbound `v`. -/
def checkEdgeTypes (cat : SchemaCatalog) (tea : List (String × List String))
    (vVar : Option String) : List String → Option PyExc
  | [] => none
  | e :: rest =>
    if cat.edgeTypes.contains e then
      match checkAttrList e (cat.edgeAttributes e) (dictGet tea e) with
      | some msg => some (.mapQuestionToSchemaException msg)
      | none => checkEdgeTypes cat tea vVar rest
    else
      match vVar with
      | some v => some (.mapQuestionToSchemaException (unknownTypeMsg v))
      | none => some .nameError

/-- The validation part of `MapQuestionToSchema._run` (lines 50–69): run the
vertex loop, then the edge loop (with `v` holding the last target vertex
type, if any), and on success return the parsed candidate unchanged. -/
def validateCandidate (cat : SchemaCatalog) (q : MapQuestionToSchemaResponse) :
    Except PyExc MapQuestionToSchemaResponse :=
  match checkVertexTypes cat q.target_vertex_attributes q.target_vertex_types with
  | some msg => .error (.mapQuestionToSchemaException msg)
  | none =>
    match checkEdgeTypes cat q.target_edge_attributes
        q.target_vertex_types.getLast? q.target_edge_types with
    | some exc => .error exc
    | none => .ok q

/-- The abnormal outcome of validation alone, with the pass-through payload
stripped: `none` when validation raises nothing. -/
def validationExc (cat : SchemaCatalog) (q : MapQuestionToSchemaResponse) : Option PyExc :=
  match validateCandidate cat q with
  | .ok _ => none
  | .error exc => some exc

/-! ## Lemmas about the validation loops -/

/-- A fully valid vertex type: present in the catalog, with every claimed
attribute present in its catalog attribute list. -/
def vertexTypeValid (cat : SchemaCatalog) (tva : List (String × List String)) (v : String) : Prop :=
  cat.vertexTypes.contains v = true ∧
    ∀ a ∈ dictGet tva v, (cat.vertexAttributes v).contains a = true

/-- A fully valid edge type, symmetrically. -/
def edgeTypeValid (cat : SchemaCatalog) (tea : List (String × List String)) (e : String) : Prop :=
  cat.edgeTypes.contains e = true ∧
    ∀ a ∈ dictGet tea e, (cat.edgeAttributes e).contains a = true

instance (cat : SchemaCatalog) (tva : List (String × List String)) (v : String) :
    Decidable (vertexTypeValid cat tva v) := by
  unfold vertexTypeValid; infer_instance

instance (cat : SchemaCatalog) (tea : List (String × List String)) (e : String) :
    Decidable (edgeTypeValid cat tea e) := by
  unfold edgeTypeValid; infer_instance

lemma checkAttrList_eq_none {t : String} {catAttrs : List String} {claimed : List String}
    (h : ∀ a ∈ claimed, catAttrs.contains a = true) :
    checkAttrList t catAttrs claimed = none := by
  induction claimed with
  | nil => rfl
  | cons a rest ih =>
    have ha := h a (List.mem_cons_self a rest)
    simp only [checkAttrList, ha, if_true]
    exact ih fun x hx => h x (List.mem_cons_of_mem a hx)

lemma checkVertexTypes_eq_none {cat : SchemaCatalog} {tva : List (String × List String)}
    {l : List String} (h : ∀ v ∈ l, vertexTypeValid cat tva v) :
    checkVertexTypes cat tva l = none := by
  induction l with
  | nil => rfl
  | cons v rest ih =>
    obtain ⟨hmem, hattrs⟩ := h v (List.mem_cons_self v rest)
    simp only [checkVertexTypes, hmem, if_true, checkAttrList_eq_none hattrs]
    exact ih fun x hx => h x (List.mem_cons_of_mem v hx)

lemma checkEdgeTypes_eq_none {cat : SchemaCatalog} {tea : List (String × List String)}
    {vVar : Option String} {l : List String} (h : ∀ e ∈ l, edgeTypeValid cat tea e) :
    checkEdgeTypes cat tea vVar l = none := by
  induction l with
  | nil => rfl
  | cons e rest ih =>
    obtain ⟨hmem, hattrs⟩ := h e (List.mem_cons_self e rest)
    simp only [checkEdgeTypes, hmem, if_true, checkAttrList_eq_none hattrs]
    exact ih fun x hx => h x (List.mem_cons_of_mem e hx)

lemma checkVertexTypes_append_of_valid {cat : SchemaCatalog}
    {tva : List (String × List String)} {pre : List String} (tail : List String)
    (h : ∀ v ∈ pre, vertexTypeValid cat tva v) :
    checkVertexTypes cat tva (pre ++ tail) = checkVertexTypes cat tva tail := by
  induction pre with
  | nil => rfl
  | cons v rest ih =>
    obtain ⟨hmem, hattrs⟩ := h v (List.mem_cons_self v rest)
    simp only [List.cons_append, checkVertexTypes, hmem, if_true,
      checkAttrList_eq_none hattrs]
    exact ih fun x hx => h x (List.mem_cons_of_mem v hx)

lemma checkAttrList_first_missing {t : String} {catAttrs : List String}
    {pre : List String} (a : String) (rest : List String)
    (hpre : ∀ x ∈ pre, catAttrs.contains x = true)
    (ha : catAttrs.contains a = false) :
    checkAttrList t catAttrs (pre ++ a :: rest) = some (unknownAttributeMsg a t) := by
  induction pre with
  | nil => simp only [List.nil_append, checkAttrList, ha, Bool.false_eq_true, if_false]
  | cons x xs ih =>
    have hx := hpre x (List.mem_cons_self x xs)
    simp only [List.cons_append, checkAttrList, hx, if_true]
    exact ih fun y hy => hpre y (List.mem_cons_of_mem x hy)

lemma checkAttrList_congr {t : String} {catAttrs : List String}
    {c1 c2 : List String} (h : c1 = c2) :
    checkAttrList t catAttrs c1 = checkAttrList t catAttrs c2 := by rw [h]

lemma checkVertexTypes_congr {cat : SchemaCatalog}
    {tva1 tva2 : List (String × List String)} {l : List String}
    (h : ∀ v ∈ l, dictGet tva1 v = dictGet tva2 v) :
    checkVertexTypes cat tva1 l = checkVertexTypes cat tva2 l := by
  induction l with
  | nil => rfl
  | cons v rest ih =>
    have hv := h v (List.mem_cons_self v rest)
    have ihr := ih fun x hx => h x (List.mem_cons_of_mem v hx)
    simp only [checkVertexTypes, hv, ihr]

lemma checkEdgeTypes_congr {cat : SchemaCatalog}
    {tea1 tea2 : List (String × List String)} {vVar : Option String} {l : List String}
    (h : ∀ e ∈ l, dictGet tea1 e = dictGet tea2 e) :
    checkEdgeTypes cat tea1 vVar l = checkEdgeTypes cat tea2 vVar l := by
  induction l with
  | nil => rfl
  | cons e rest ih =>
    have he := h e (List.mem_cons_self e rest)
    have ihr := ih fun x hx => h x (List.mem_cons_of_mem e hx)
    simp only [checkEdgeTypes, he, ihr]

/-! ## Claim theorems: schema validation -/

/-- C4: a candidate all of whose target vertex and edge types are present in
the catalog, and all of whose claimed attributes for those types are present
in the corresponding attribute lists, passes validation with no exception,
and the validator returns the candidate itself unchanged. -/
theorem validator_pass_through (cat : SchemaCatalog) (q : MapQuestionToSchemaResponse)
    (hv : ∀ v ∈ q.target_vertex_types, vertexTypeValid cat q.target_vertex_attributes v)
    (he : ∀ e ∈ q.target_edge_types, edgeTypeValid cat q.target_edge_attributes e) :
    validateCandidate cat q = .ok q := by
  simp only [validateCandidate, checkVertexTypes_eq_none hv, checkEdgeTypes_eq_none he]

/-- Catalog for scenario 1: vertex `Person` with attribute `email`. -/
def catPerson : SchemaCatalog :=
  { vertexTypes := ["Person"],
    edgeTypes := ["Friend"],
    vertexAttributes := fun t => if t = "Person" then ["email"] else [],
    edgeAttributes := fun _ => [] }

/-- Scenario 1 candidate: requests `Person.email`. -/
def candPersonEmail : MapQuestionToSchemaResponse :=
  { target_vertex_types := ["Person"],
    target_edge_types := [],
    target_vertex_attributes := [("Person", ["email"])],
    target_edge_attributes := [] }

/-- C4 witness (spec scenario 1): the catalog has vertex `Person` with
attribute `email`, the candidate requests `Person.email`, and validation
returns the candidate unchanged. -/
theorem validator_pass_through_witness :
    validateCandidate catPerson candPersonEmail = .ok candPersonEmail :=
  validator_pass_through catPerson candPersonEmail
    (by decide) (by decide)

/-- C5: validation is fail-fast with vertex checks first. If every target
vertex type before `V` in iteration order is present with all its claimed
attributes present, and `V` is not in the catalog's vertex types, the
validator raises `MapQuestionToSchemaException` naming `V` — whatever later
vertex types, attributes, or any edge types and edge attributes look like. -/
theorem validator_first_unknown_vertex_wins (cat : SchemaCatalog)
    (q : MapQuestionToSchemaResponse) (pre : List String) (V : String) (rest : List String)
    (hsplit : q.target_vertex_types = pre ++ V :: rest)
    (hpre : ∀ v ∈ pre, vertexTypeValid cat q.target_vertex_attributes v)
    (hV : cat.vertexTypes.contains V = false) :
    validateCandidate cat q = .error (.mapQuestionToSchemaException (unknownTypeMsg V)) := by
  simp only [validateCandidate, hsplit, checkVertexTypes_append_of_valid _ hpre,
    checkVertexTypes, hV, Bool.false_eq_true, if_false]

/-- Catalog with no `Service` type, for scenario 2. -/
def catNoService : SchemaCatalog :=
  { vertexTypes := ["Person"],
    edgeTypes := [],
    vertexAttributes := fun t => if t = "Person" then ["email"] else [],
    edgeAttributes := fun _ => [] }

/-- Scenario 2 candidate, extended with further invalid fields after the
unknown `Service` to exercise first-found-wins: a later unknown vertex type,
an unknown attribute, and an unknown edge type. -/
def candService : MapQuestionToSchemaResponse :=
  { target_vertex_types := ["Person", "Service", "Ghost"],
    target_edge_types := ["BogusEdge"],
    target_vertex_attributes := [("Person", ["email"]), ("Ghost", ["spook"])],
    target_edge_attributes := [("BogusEdge", ["nope"])] }

/-- C5 witness (spec scenario 2): the catalog has no type `Service`; a
candidate whose first unknown name is `Service` — with further invalid
vertex and edge entries after it — fails naming `Service`. -/
theorem validator_first_unknown_vertex_wins_witness :
    validateCandidate catNoService candService
      = .error (.mapQuestionToSchemaException (unknownTypeMsg "Service")) :=
  validator_first_unknown_vertex_wins catNoService candService
    ["Person"] "Service" ["Ghost"] (by decide) (by decide) (by decide)

/-- Catalog whose vertex `Person` has no attribute `ssn`; it also lacks the
type `Service`. Used for the C6 analysis. -/
def catPersonNoSsn : SchemaCatalog :=
  { vertexTypes := ["Person"],
    edgeTypes := [],
    vertexAttributes := fun t => if t = "Person" then ["email"] else [],
    edgeAttributes := fun _ => [] }

/-- A candidate that claims `Person.ssn` (with `Person` present but `ssn`
absent from its attribute list) — yet lists the unknown vertex type
`Service` before `Person` in iteration order. -/
def candServiceThenPersonSsn : MapQuestionToSchemaResponse :=
  { target_vertex_types := ["Service", "Person"],
    target_edge_types := [],
    target_vertex_attributes := [("Person", ["ssn"])],
    target_edge_attributes := [] }

/-- C6 counterexample: this candidate claims attribute `ssn` for the present
vertex type `Person` whose attribute list lacks `ssn`, so the claim as
stated demands an `UnknownAttribute` failure naming `ssn` on `Person`; the
code instead fails first on the unknown type `Service`, with the
unknown-type message — not the unknown-attribute one. -/
theorem validator_unknown_attribute_cex :
    candServiceThenPersonSsn.target_vertex_types.contains "Person" = true ∧
    catPersonNoSsn.vertexTypes.contains "Person" = true ∧
    dictGet candServiceThenPersonSsn.target_vertex_attributes "Person" = ["ssn"] ∧
    (catPersonNoSsn.vertexAttributes "Person").contains "ssn" = false ∧
    validateCandidate catPersonNoSsn candServiceThenPersonSsn
      = .error (.mapQuestionToSchemaException (unknownTypeMsg "Service")) ∧
    validateCandidate catPersonNoSsn candServiceThenPersonSsn
      ≠ .error (.mapQuestionToSchemaException (unknownAttributeMsg "ssn" "Person")) := by
  refine ⟨rfl, rfl, rfl, rfl, rfl, by decide⟩

/-- C6 amended: when the claimed pair is the first violation in iteration
order — every target vertex type before `T` is present with all its claimed
attributes present, `T` itself is present, and every attribute claimed for
`T` before `A` is present — a claimed attribute `A` missing from `T`'s
attribute list makes the validator fail with the unknown-attribute message
naming both `A` and its owning type `T`. -/
theorem validator_unknown_attribute (cat : SchemaCatalog)
    (q : MapQuestionToSchemaResponse) (pre : List String) (T : String) (rest : List String)
    (preA : List String) (A : String) (restA : List String)
    (hsplit : q.target_vertex_types = pre ++ T :: rest)
    (hpre : ∀ v ∈ pre, vertexTypeValid cat q.target_vertex_attributes v)
    (hT : cat.vertexTypes.contains T = true)
    (hattrs : dictGet q.target_vertex_attributes T = preA ++ A :: restA)
    (hpreA : ∀ x ∈ preA, (cat.vertexAttributes T).contains x = true)
    (hA : (cat.vertexAttributes T).contains A = false) :
    validateCandidate cat q
      = .error (.mapQuestionToSchemaException (unknownAttributeMsg A T)) := by
  simp only [validateCandidate, hsplit, checkVertexTypes_append_of_valid _ hpre,
    checkVertexTypes, hT, if_true, hattrs, checkAttrList_first_missing A restA hpreA hA]

/-- Scenario 3 candidate: requests exactly `Person.ssn`. -/
def candPersonSsn : MapQuestionToSchemaResponse :=
  { target_vertex_types := ["Person"],
    target_edge_types := [],
    target_vertex_attributes := [("Person", ["ssn"])],
    target_edge_attributes := [] }

/-- C6 witness (spec scenario 3): the catalog has vertex `Person` without
attribute `ssn`; a candidate requesting `Person.ssn` fails with the
unknown-attribute message naming `ssn` on `Person`. -/
theorem validator_unknown_attribute_witness :
    validateCandidate catPersonNoSsn candPersonSsn
      = .error (.mapQuestionToSchemaException (unknownAttributeMsg "ssn" "Person")) :=
  validator_unknown_attribute catPersonNoSsn candPersonSsn
    [] "Person" [] [] "ssn" [] (by decide) (by decide) (by decide) (by decide)
    (by decide) (by decide)

/-- Catalog for the unknown-edge analysis: vertex `Person` is valid, and
there are no edge types at all, so any requested edge type is unknown. -/
def catNoEdges : SchemaCatalog :=
  { vertexTypes := ["Person"],
    edgeTypes := [],
    vertexAttributes := fun t => if t = "Person" then ["email"] else [],
    edgeAttributes := fun _ => [] }

/-- A candidate whose vertex part (`Person`) validates and which references
exactly one unknown edge type, `Calls`. -/
def candUnknownEdge : MapQuestionToSchemaResponse :=
  { target_vertex_types := ["Person"],
    target_edge_types := ["Calls"],
    target_vertex_attributes := [("Person", ["email"])],
    target_edge_attributes := [] }

/-- The same unknown edge type `Calls`, but with no target vertex types at
all — so the vertex loop never binds its variable. -/
def candUnknownEdgeNoVertices : MapQuestionToSchemaResponse :=
  { target_vertex_types := [],
    target_edge_types := ["Calls"],
    target_vertex_attributes := [],
    target_edge_attributes := [] }

/-- C1: evaluation of the code at the failing input. The candidate's vertex
part passes and its only unknown name is the edge type `Calls`, yet the
raised message names `Person` — the leftover vertex-loop variable `v` used
at line 68 of `tools/map_schema_to_question.py` — instead of `Calls`; with
no target vertex types the same line fails with a `NameError` on the
unbound `v`. -/
theorem validator_unknown_edge_names_vertex :
    catNoEdges.edgeTypes.contains "Calls" = false ∧
    validateCandidate catNoEdges candUnknownEdge
      = .error (.mapQuestionToSchemaException (unknownTypeMsg "Person")) ∧
    validateCandidate catNoEdges candUnknownEdge
      ≠ .error (.mapQuestionToSchemaException (unknownTypeMsg "Calls")) ∧
    validateCandidate catNoEdges candUnknownEdgeNoVertices = .error .nameError := by
  refine ⟨rfl, rfl, by decide, rfl⟩

/-- C10: the validator never inspects attribute entries whose key is outside
the corresponding target type list. Two candidates with the same target
vertex and edge types whose attribute dicts agree on every key that is a
target type — so differing only in entries keyed by non-target names, such
entries added or removed at will — validate to the same outcome. -/
theorem validator_ignores_unlisted_attr_entries (cat : SchemaCatalog)
    (q1 q2 : MapQuestionToSchemaResponse)
    (hvt : q1.target_vertex_types = q2.target_vertex_types)
    (het : q1.target_edge_types = q2.target_edge_types)
    (hva : ∀ v ∈ q1.target_vertex_types,
      dictGet q1.target_vertex_attributes v = dictGet q2.target_vertex_attributes v)
    (hea : ∀ e ∈ q1.target_edge_types,
      dictGet q1.target_edge_attributes e = dictGet q2.target_edge_attributes e) :
    validationExc cat q1 = validationExc cat q2 := by
  have hva2 : ∀ v ∈ q2.target_vertex_types,
      dictGet q1.target_vertex_attributes v = dictGet q2.target_vertex_attributes v :=
    hvt ▸ hva
  have hea2 : ∀ e ∈ q2.target_edge_types,
      dictGet q1.target_edge_attributes e = dictGet q2.target_edge_attributes e :=
    het ▸ hea
  have hv : checkVertexTypes cat q1.target_vertex_attributes q2.target_vertex_types
      = checkVertexTypes cat q2.target_vertex_attributes q2.target_vertex_types :=
    checkVertexTypes_congr hva2
  have he : checkEdgeTypes cat q1.target_edge_attributes q2.target_vertex_types.getLast?
      q2.target_edge_types
      = checkEdgeTypes cat q2.target_edge_attributes q2.target_vertex_types.getLast?
        q2.target_edge_types :=
    checkEdgeTypes_congr hea2
  simp only [validationExc, validateCandidate, hvt, het, hv, he]
  cases checkVertexTypes cat q2.target_vertex_attributes q2.target_vertex_types with
  | none =>
    cases checkEdgeTypes cat q2.target_edge_attributes q2.target_vertex_types.getLast?
        q2.target_edge_types with
    | none => rfl
    | some exc => rfl
  | some msg => rfl

/-- `candPersonEmail` with an extra attribute entry keyed by `Ghost`, a name
that is not among the target vertex types, claiming an attribute that exists
nowhere in the catalog. -/
def candPersonEmailPlusGhost : MapQuestionToSchemaResponse :=
  { target_vertex_types := ["Person"],
    target_edge_types := [],
    target_vertex_attributes := [("Ghost", ["bogus"]), ("Person", ["email"])],
    target_edge_attributes := [] }

/-- C10 witness: adding the `("Ghost", ["bogus"])` entry — `Ghost` not being
a target vertex type and `bogus` existing nowhere in the catalog — leaves
the validation outcome unchanged (both candidates pass silently). -/
theorem validator_ignores_unlisted_attr_entries_witness :
    validationExc catPerson candPersonEmail
      = validationExc catPerson candPersonEmailPlusGhost ∧
    validationExc catPerson candPersonEmailPlusGhost = none := by
  refine ⟨validator_ignores_unlisted_attr_entries catPerson candPersonEmail
    candPersonEmailPlusGhost (by decide) (by decide) (by decide) (by decide), rfl⟩

/-! ## Lemmas about the extraction paths -/

/-- Whenever the primary path completes, it has populated every field of the
response on the structured shape: the final output as the summary, a
function call with a decoded result as the sources, and the answered flag
set. -/
lemma primaryExtract_ok_shape {t : ExecutionTrace} {r : NaturalLanguageQueryResponse}
    (h : primaryExtract t = .ok r) :
    r.natural_language_response = t.output ∧ r.answered_question = true ∧
      ∃ f j, r.query_sources = .functionResult f j := by
  unfold primaryExtract at h
  cases hl : t.intermediate_steps.getLast? with
  | none => rw [hl] at h; exact absurd h (by simp)
  | some st =>
    rw [hl] at h
    cases hm : (pySplit st.2 "Function ")[1]? with
    | none => simp only [hm] at h; exact absurd h (by simp)
    | some afterMarker =>
      simp only [hm] at h
      cases hj : jsonLoads (((pySplit st.2 "the result ").getLast?).getD "") with
      | error m => simp only [hj] at h; exact absurd h (by simp)
      | ok decoded =>
        simp only [hj] at h
        cases h
        exact ⟨rfl, rfl, _, decoded, rfl⟩

/-! ## Claim theorems: answer extraction and response assembly -/

/-- C2: the extraction region of `retrieve_answer` is total. For every
execution trace — empty, marker-free or otherwise — no exception escapes
the region: every exception of the primary path (index errors from marker
slicing, JSON decode errors) is caught locally and turns the outcome into
the fallback path, whose own statements are total, and the region returns a
fully populated response of one of the two shapes. -/
theorem extraction_total (t : ExecutionTrace) :
    ∃ r, extractAnswerE t = .ok r ∧ r = extractAnswer t ∧
      ((r.answered_question = true ∧ ∃ f j, r.query_sources = .functionResult f j) ∨
        (r.answered_question = false ∧
          r.query_sources = .agentHistory (renderTrace t))) := by
  cases h : primaryExtract t with
  | ok r =>
    obtain ⟨-, hans, hsrc⟩ := primaryExtract_ok_shape h
    exact ⟨r, by simp [extractAnswerE, h], by simp [extractAnswer, h],
      Or.inl ⟨hans, hsrc⟩⟩
  | error e =>
    exact ⟨fallbackExtract t, by simp [extractAnswerE, h], by simp [extractAnswer, h],
      Or.inr ⟨rfl, rfl⟩⟩

/-- C9: the answered flag of the extracted response is true exactly when the
primary (structured) extraction path completed without raising; every
exception there yields an unanswered response. -/
theorem answered_iff_primary_ok (t : ExecutionTrace) :
    (extractAnswer t).answered_question = true ↔ (primaryExtract t).isOk = true := by
  unfold extractAnswer
  cases h : primaryExtract t with
  | ok r =>
    simpa [Except.isOk, Except.toBool] using (primaryExtract_ok_shape h).2.1
  | error e =>
    simp [Except.isOk, Except.toBool, fallbackExtract]

/-- A trace whose final output string contains neither marker, while the
output of its last intermediate step carries both markers and a valid JSON
literal. -/
def traceMarkersInStepOnly : ExecutionTrace :=
  { intermediate_steps := [("GenerateFunction", "Function getCount produced the result 1")],
    output := "I could not determine an answer" }

/-- C7 counterexample: this trace's final output lacks both fixed markers,
so the claim as stated demands the fallback response with `answered =
false` and no function call — but the code inspects the last intermediate
step's output, which does carry the markers, so extraction answers with
`answered = true` and a populated function call instead of the fallback
shape. -/
theorem fallback_populates_response_cex :
    (pySplit traceMarkersInStepOnly.output "Function ")[1]? = none ∧
    (pySplit traceMarkersInStepOnly.output "the result ")
      = [traceMarkersInStepOnly.output] ∧
    (extractAnswer traceMarkersInStepOnly).answered_question = true ∧
    (extractAnswer traceMarkersInStepOnly).query_sources
      = .functionResult "getCount" (.num 1 0) :=
  ⟨rfl, rfl, rfl, rfl⟩

/-- C7 amended: whenever the primary path raises — the fixed markers are
absent from the text the extractor inspects (the output of the trace's
final intermediate step, not the trace's final output string), there is no
final step at all, or the sliced result fails to JSON-decode — the fallback
populates the response with the trace's final output as the
natural-language summary, the textual rendering of the entire trace as the
preserved raw result, no function call, and the answered flag false. -/
theorem fallback_populates_response (t : ExecutionTrace)
    (h : ∃ e, primaryExtract t = .error e) :
    extractAnswer t
      = { natural_language_response := t.output,
          query_sources := .agentHistory (renderTrace t),
          answered_question := false } := by
  obtain ⟨e, he⟩ := h
  unfold extractAnswer
  rw [he]
  rfl

/-- Scenario 5 trace: the final step's output and the final output both read
`"I could not determine an answer"`, containing no markers. -/
def traceNoMarkers : ExecutionTrace :=
  { intermediate_steps := [("GenerateFunction", "I could not determine an answer")],
    output := "I could not determine an answer" }

/-- C7 witness (spec scenario 5): a marker-free trace produces the fallback
response — the final output as the summary, the rendered full trace as the
history, and answered false. -/
theorem fallback_populates_response_witness :
    extractAnswer traceNoMarkers
      = { natural_language_response := "I could not determine an answer",
          query_sources := .agentHistory (renderTrace traceNoMarkers),
          answered_question := false } :=
  fallback_populates_response traceNoMarkers ⟨.indexError, rfl⟩

/-- C8: every abnormal end of the agent call — the validator's
`MapQuestionToSchemaException` (a validation error), and any other exception
(an unparsable restatement, an opaque execution failure) — produces the one
empty-answer response: empty natural-language response, empty query sources,
answered false. The failure kinds are indistinguishable in the response. -/
theorem pipeline_failures_collapse (m1 m2 : String) :
    retrieve_answer (.mapQuestionToSchemaException m1) = emptyResponse ∧
    retrieve_answer (.otherException m2) = emptyResponse ∧
    emptyResponse.natural_language_response = "" ∧
    emptyResponse.query_sources = .empty ∧
    emptyResponse.answered_question = false :=
  ⟨rfl, rfl, rfl, rfl, rfl⟩

/-- A trace whose final output string carries both markers and a valid JSON
literal, but whose step list is empty. -/
def traceMarkersInFinalOutput : ExecutionTrace :=
  { intermediate_steps := [],
    output := "Function getCount produced the result \x7b\"count\": 5\x7d" }

/-- C3 counterexample: this trace's final output contains the
function-invocation marker (the sliced name being `getCount`), the result
marker, and a valid JSON literal after it — yet extraction does not answer:
the code slices the last intermediate step's output, not the trace's final
output, and with no steps the primary path raises an `IndexError` and falls
back with `answered = false` and no function call. -/
theorem round_trip_extraction_cex :
    (pySplit traceMarkersInFinalOutput.output "Function ")[1]?
      = some "getCount produced the result \x7b\"count\": 5\x7d" ∧
    (pySplit "getCount produced the result \x7b\"count\": 5\x7d" " produced").headD ""
      = "getCount" ∧
    ((pySplit traceMarkersInFinalOutput.output "the result ").getLast?).getD ""
      = "\x7b\"count\": 5\x7d" ∧
    jsonLoads "\x7b\"count\": 5\x7d" = .ok (.obj [("count", .num 5 0)]) ∧
    (extractAnswer traceMarkersInFinalOutput).answered_question = false ∧
    (extractAnswer traceMarkersInFinalOutput).query_sources
      = .agentHistory (renderTrace traceMarkersInFinalOutput) :=
  ⟨rfl, rfl, rfl, rfl, rfl, rfl⟩

/-- C3 amended: the round trip holds of the text the extractor inspects —
the output of the trace's final intermediate step rather than the trace's
final output string. If that text contains the function-invocation marker
`"Function "` (with sliced remainder `afterMarker`) and the text after the
last result marker `"the result "` decodes as JSON value `j`, extraction
answers: the function called is the name sliced before `" produced"`, the
raw result is exactly `j`, and the answered flag is true. -/
theorem round_trip_extraction (t : ExecutionTrace) (tool lastOut afterMarker : String)
    (j : Json)
    (hlast : t.intermediate_steps.getLast? = some (tool, lastOut))
    (hmark : (pySplit lastOut "Function ")[1]? = some afterMarker)
    (hjson : jsonLoads (((pySplit lastOut "the result ").getLast?).getD "") = .ok j) :
    extractAnswer t
      = { natural_language_response := t.output,
          query_sources :=
            .functionResult ((pySplit afterMarker " produced").headD "") j,
          answered_question := true } := by
  unfold extractAnswer primaryExtract
  rw [hlast]
  simp only [hmark, hjson]

/-- Scenario 4 trace: the final step's output carries the markers around the
name `getCount` and the JSON literal with count 5. -/
def traceGetCount : ExecutionTrace :=
  { intermediate_steps :=
      [("GenerateFunction", "Function getCount produced the result \x7b\"count\": 5\x7d")],
    output := "There are 5." }

/-- C3 witness (spec scenario 4, relocated to the inspected text): a trace
whose final step's output is
`"Function getCount produced the result \x7b"count": 5\x7d"` extracts
`function_called = "getCount"`, `raw_result` the decoded object with count
5, and `answered = true`. -/
theorem round_trip_extraction_witness :
    extractAnswer traceGetCount
      = { natural_language_response := "There are 5.",
          query_sources := .functionResult "getCount" (.obj [("count", .num 5 0)]),
          answered_question := true } :=
  round_trip_extraction traceGetCount "GenerateFunction"
    "Function getCount produced the result \x7b\"count\": 5\x7d"
    "getCount produced the result \x7b\"count\": 5\x7d"
    (.obj [("count", .num 5 0)]) rfl rfl rfl

end CoPilot
